import Mathlib

/-!
Verification development for the DPF ImGui example UI
(`src/plugins/SimpleGain/ImGuiUI.cpp` / `ImGuiUI.hpp`).

This file gives a shallow embedding of the state and operations of the
`ImGuiUI` class: the input-event handlers (`onKeyboard`, `onSpecial`,
`onMouse`, `onMotion`, `onScroll`), the repaint scheduler (`uiIdle`), the
paint executor (`onDisplay`), and the draw-output cache and differ
(`checkDrawCacheEquals`, `updateDrawCache`, `updateImGui`), together with
theorems about them.

Modelling conventions:
* The immediate-mode GUI library (imgui) is an external collaborator; the
  pieces of its state that the embedded code reads and writes (the
  `ImGuiIO` input fields and the `ImDrawData` / `ImDrawList` draw output)
  are embedded as plain data.  Draw output produced by a frame computation
  is an input to the functions that consume it.
* Machine integers are `Nat` / `Int`; none of the embedded arithmetic can
  overflow its C++ type on the values that occur.
* All float values occurring in the embedded code (colors, positions,
  wheel deltas) are only copied, added, rounded or compared, never
  involved in precision-sensitive computation that a claim depends on;
  they are represented as rationals.
* Timestamps of `std::chrono::steady_clock` are modelled as nanosecond
  counts (`Nat`); `duration_cast` to milliseconds is integer division by
  1000000, truncating, exactly as in C++ for non-negative durations (the
  steady clock is monotone, so the measured durations are non-negative).
* The per-element byte sizes `sizeof(ImDrawCmd)`, `sizeof(ImDrawIdx)`,
  `sizeof(ImDrawVert)` are platform constants of the vendored imgui
  headers; the definitions are parameterised over them (`szCmd`, `szIdx`,
  `szVtx`) so that theorems hold for every choice.
-/

namespace ImGuiUIModel

/-- Color as stored by DPF's `Color` type (red, green, blue, alpha float
components).  The program only stores and copies color components (the
default `Color{0.25f, 0.25f, 0.25f}` and caller-supplied values), so the
components are represented exactly as rationals. -/
@[ext] structure Color where
  red : ℚ
  green : ℚ
  blue : ℚ
  alpha : ℚ
deriving DecidableEq

/-- One imgui `ImVector` buffer as the cache differ sees it: the `Size`
field (the element count, an `int` that is never negative) and the raw
byte content of the memory pointed to by `Data`.  A well-formed buffer of
element size `s` has `bytes.length = size * s`. -/
@[ext] structure Buffer where
  size : Nat
  bytes : List Nat
deriving DecidableEq

/-- One imgui `ImDrawList`, restricted to the fields the embedded code
touches: `Flags`, `CmdBuffer`, `IdxBuffer`, `VtxBuffer` (these are exactly
the fields `ImDrawList::CloneOutput` copies and `checkDrawCacheEquals`
compares). -/
@[ext] structure ImDrawList where
  flags : Int
  cmdBuffer : Buffer
  idxBuffer : Buffer
  vtxBuffer : Buffer
deriving DecidableEq

/-- The imgui `ImDrawData` draw output of one frame: the `Valid` flag and
the `CmdLists` array; `CmdListsCount` is `cmdLists.length`. -/
@[ext] structure ImDrawData where
  valid : Bool
  cmdLists : List ImDrawList
deriving DecidableEq

/-- The slice of the imgui `ImGuiIO` state that the embedded handlers read
and write.  `keysDown` and `mouseDown` model the fixed C arrays
`KeysDown[512]` and `MouseDown[5]` as total functions on the `Int` index
the code computes (so that every computed index, in range or not, is a
meaningful place to state theorems about); `inputQueueCharacters` is the
pending text-input queue fed by `AddInputCharacter`. -/
structure ImGuiIOState where
  keysDown : Int → Bool
  keyShift : Bool
  keyCtrl : Bool
  keyAlt : Bool
  keySuper : Bool
  mouseDown : Int → Bool
  mousePosX : ℚ
  mousePosY : ℚ
  mouseWheel : ℚ
  mouseWheelH : ℚ
  inputQueueCharacters : List Nat
  wantCaptureKeyboard : Bool
  wantCaptureMouse : Bool
  displaySizeX : ℚ
  displaySizeY : ℚ

/-- DPF `KeyboardEvent`: press/release flag and the character key code
(a C++ `uint`, hence never negative). -/
structure KeyboardEvent where
  press : Bool
  key : Nat

/-- DPF `SpecialEvent`: press/release flag and the logical key id of the
`Key` enumeration. -/
structure SpecialEvent where
  press : Bool
  key : Nat

/-- DPF `MouseEvent`: press/release flag and the platform button code. -/
structure MouseEvent where
  press : Bool
  button : Int

/-- DPF `MotionEvent`: pointer position. -/
structure MotionEvent where
  posX : ℚ
  posY : ℚ

/-- DPF `ScrollEvent`: scroll delta. -/
structure ScrollEvent where
  deltaX : ℚ
  deltaY : ℚ

/-- Modelled from the spec: the key-state table is fixed-size with a
reserved region for special keys "mapped to the high end of the index
space"; its size is the array size of `ImGuiIO::KeysDown` in the vendored
imgui headers (not under `src/`), which is 512
(`IM_ARRAYSIZE(io.KeysDown)` in the source). -/
def KeysDownSize : Nat := 512

/-- Modelled from the spec: the special (non-printable) logical key ids
are the 25 consecutive values of the vendored DPF `Key` enumeration (not
under `src/`): twelve function keys, the four arrows, page up/down,
home/end, insert, and the four modifier keys, numbered 1..25.  `kKeyF1`
is the smallest id. -/
def kKeyF1 : Nat := 1

/-- Modelled from the spec: the shift modifier, id 22 of the vendored DPF
`Key` enumeration. -/
def kKeyShift : Nat := 22

/-- Modelled from the spec: the control modifier, id 23 of the vendored
DPF `Key` enumeration. -/
def kKeyControl : Nat := 23

/-- Modelled from the spec: the alt modifier, id 24 of the vendored DPF
`Key` enumeration. -/
def kKeyAlt : Nat := 24

/-- Modelled from the spec: the super modifier, id 25 of the vendored DPF
`Key` enumeration; it is the largest special-key id. -/
def kKeySuper : Nat := 25

/-- Semantics of C++ `std::round`: round half away from zero. -/
def stdRound (x : ℚ) : Int :=
  if 0 ≤ x then ⌊x + 1 / 2⌋ else ⌈x - 1 / 2⌉

/-- `Impl::getScaleFactor`, fixed at 1.0 in the source. -/
def getScaleFactor : ℚ := 1

/-- The key-state index written by `onKeyboard` for an in-range key code:
`if (imGuiKey >= 'a' && imGuiKey <= 'z') imGuiKey = imGuiKey - 'a' + 'A'`
(97..122 normalised to 65..90), else the code itself. -/
def asciiKeyIndex (key : Nat) : Int :=
  if 97 ≤ key ∧ key ≤ 122 then (key : Int) - 97 + 65 else (key : Int)

/-- `ImGuiUI::onKeyboard`: on press the character is appended to the
pending text-input queue (`io.AddInputCharacter(event.key)`); then, if
the key code is below 128 (the `imGuiKey >= 0` half of the source test is
always true because `event.key` is unsigned), the press/release state is
written to `KeysDown` at the lowercase-normalised index.  Returns
`io.WantCaptureKeyboard`. -/
def onKeyboard (event : KeyboardEvent) (io : ImGuiIOState) :
    Bool × ImGuiIOState :=
  let io1 :=
    if event.press then
      { io with inputQueueCharacters := io.inputQueueCharacters ++ [event.key] }
    else io
  let io2 :=
    if event.key < 128 then
      let k := asciiKeyIndex event.key
      { io1 with keysDown := fun j => if j = k then event.press else io1.keysDown j }
    else io1
  (io2.wantCaptureKeyboard, io2)

/-- The reserved key-state index written by `onSpecial`:
`IM_ARRAYSIZE(io.KeysDown) - event.key`. -/
def specialKeyIndex (key : Nat) : Int :=
  (KeysDownSize : Int) - (key : Int)

/-- `ImGuiUI::onSpecial`: writes the press/release state to `KeysDown` at
the reserved index `KeysDownSize - event.key`, then sets the matching
modifier flag when the key is one of the four modifiers.  Returns
`io.WantCaptureKeyboard`. -/
def onSpecial (event : SpecialEvent) (io : ImGuiIOState) :
    Bool × ImGuiIOState :=
  let k := specialKeyIndex event.key
  let io1 := { io with keysDown := fun j => if j = k then event.press else io.keysDown j }
  let io2 :=
    if event.key = kKeyShift then { io1 with keyShift := event.press }
    else if event.key = kKeyControl then { io1 with keyCtrl := event.press }
    else if event.key = kKeyAlt then { io1 with keyAlt := event.press }
    else if event.key = kKeySuper then { io1 with keySuper := event.press }
    else io1
  (io2.wantCaptureKeyboard, io2)

/-- `Impl::mouseButtonToImGui`: the fixed button table of the source,
`switch (button) default: -1; case 1: 0; case 2: 2; case 3: 1`. -/
def mouseButtonToImGui (button : Int) : Int :=
  if button = 1 then 0
  else if button = 2 then 2
  else if button = 3 then 1
  else -1

/-- `ImGuiUI::onMouse`: maps the platform button through
`mouseButtonToImGui`; when the result is not -1, writes the press/release
state to `MouseDown` at that index.  Returns `io.WantCaptureMouse`. -/
def onMouse (event : MouseEvent) (io : ImGuiIOState) :
    Bool × ImGuiIOState :=
  let imGuiButton := mouseButtonToImGui event.button
  let io1 :=
    if imGuiButton = -1 then io
    else { io with mouseDown := fun j => if j = imGuiButton then event.press else io.mouseDown j }
  (io1.wantCaptureMouse, io1)

/-- `ImGuiUI::onMotion`: overwrites the pointer position with the scaled,
rounded event coordinates and returns the constant `false` of the
source. -/
def onMotion (event : MotionEvent) (io : ImGuiIOState) :
    Bool × ImGuiIOState :=
  (false,
   { io with
      mousePosX := (stdRound (getScaleFactor * event.posX) : ℚ)
      mousePosY := (stdRound (getScaleFactor * event.posY) : ℚ) })

/-- `ImGuiUI::onScroll`: accumulates the scroll delta onto the wheel axes
(`io.MouseWheel += delta.y; io.MouseWheelH += delta.x`).  Returns
`io.WantCaptureMouse`. -/
def onScroll (event : ScrollEvent) (io : ImGuiIOState) :
    Bool × ImGuiIOState :=
  (io.wantCaptureMouse,
   { io with
      mouseWheel := io.mouseWheel + event.deltaY
      mouseWheelH := io.mouseWheelH + event.deltaX })

/-- Semantics of `std::memcmp(p, q, n) == 0`: the first `n` bytes of the
two byte arrays coincide. -/
def memcmpIsZero (xs ys : List Nat) (n : Nat) : Bool :=
  xs.take n == ys.take n

/-- One `BinaryItem` comparison step of `checkDrawCacheEquals` for a pair
of buffers of per-element byte size `elemSize`: each item's recorded size
is `(int)(buffer.Size / sizeof(Element))`, and the loop returns false
when the two sizes differ or `memcmp` of that many bytes differs. -/
def binaryItemEquals (a b : Buffer) (elemSize : Nat) : Bool :=
  let size := a.size / elemSize
  size == b.size / elemSize && memcmpIsZero a.bytes b.bytes size

/-- The per-list body of the `checkDrawCacheEquals` loop: compare the
`Flags`, then the three buffer pairs (commands, indices, vertices) with
`binaryItemEquals`, short-circuiting on the first mismatch. -/
def checkDrawListEquals (szCmd szIdx szVtx : Nat) (a b : ImDrawList) : Bool :=
  a.flags == b.flags
    && binaryItemEquals a.cmdBuffer b.cmdBuffer szCmd
    && binaryItemEquals a.idxBuffer b.idxBuffer szIdx
    && binaryItemEquals a.vtxBuffer b.vtxBuffer szVtx

/-- `Impl::checkDrawCacheEquals`: true when the list count of the new draw
output equals the cached count and every positionally paired list passes
`checkDrawListEquals`. -/
def checkDrawCacheEquals (szCmd szIdx szVtx : Nat) (drawData : ImDrawData)
    (fDrawCache : List ImDrawList) : Bool :=
  drawData.cmdLists.length == fDrawCache.length
    && (List.zip drawData.cmdLists fDrawCache).all
        (fun p => checkDrawListEquals szCmd szIdx szVtx p.1 p.2)

/-- `ImDrawList::CloneOutput` of the vendored imgui performs a deep copy
of the fields embedded here (`CmdBuffer`, `IdxBuffer`, `VtxBuffer`,
`Flags`); in value semantics a deep copy is the identical value. -/
def CloneOutput (drawList : ImDrawList) : ImDrawList :=
  drawList

/-- `Impl::cleanupDrawCache`: deletes every owned cached list and clears
the vector; in value semantics the resulting cache is empty. -/
def cleanupDrawCache : List ImDrawList :=
  []

/-- `Impl::updateDrawCache`: runs `cleanupDrawCache`, then refills the
cache with `CloneOutput` of each list of the new draw output, in
order. -/
def updateDrawCache (drawData : ImDrawData) : List ImDrawList :=
  cleanupDrawCache ++ drawData.cmdLists.map CloneOutput

/-- `Impl::updateImGui`, after the frame pipeline (`NewFrame`, the plugin
draw callback, `Render`) has produced `drawData`: when
`checkDrawCacheEquals` holds the cache is kept and the result is `false`;
otherwise the cache is replaced by `updateDrawCache` and the result is
`true`.  The returned pair is (result, cache afterwards). -/
def updateImGui (szCmd szIdx szVtx : Nat) (drawData : ImDrawData)
    (fDrawCache : List ImDrawList) : Bool × List ImDrawList :=
  if checkDrawCacheEquals szCmd szIdx szVtx drawData fDrawCache then
    (false, fDrawCache)
  else
    (true, updateDrawCache drawData)

/-- The per-instance state of `ImGuiUI` and its `Impl`: the embedded
`ImGuiIO` slice of the GUI context plus the `Impl` fields
`fBackgroundColor`, `fRepaintIntervalMs`, `fLastRepainted` (steady-clock
nanoseconds), `fWasEverPainted` and `fDrawCache`. -/
structure ImGuiUIState where
  io : ImGuiIOState
  fBackgroundColor : Color
  fRepaintIntervalMs : Int
  fLastRepainted : Nat
  fWasEverPainted : Bool
  fDrawCache : List ImDrawList

/-- `ImGuiUI::setBackgroundColor`. -/
def setBackgroundColor (color : Color) (st : ImGuiUIState) : ImGuiUIState :=
  { st with fBackgroundColor := color }

/-- `ImGuiUI::setRepaintInterval`. -/
def setRepaintInterval (intervalMs : Int) (st : ImGuiUIState) : ImGuiUIState :=
  { st with fRepaintIntervalMs := intervalMs }

/-- Truncation of a float to `int` as in the C++ cast `(int)x`. -/
def cIntOfFloat (x : ℚ) : Int :=
  if 0 ≤ x then ⌊x⌋ else ⌈x⌉

/-- The observable effect of one `onDisplay` call on the rendering
backend: the viewport set from `io.DisplaySize`, the clear color passed
to `glClearColor`, and the draw output submitted for rasterisation, if
any. -/
structure PaintResult where
  viewportW : Int
  viewportH : Int
  clearColor : Color
  rendered : Option ImDrawData

/-- `ImGuiUI::onDisplay` at wall-clock time `now`, where `drawData` is
what `ImGui::GetDrawData()` returns (`none` models a null pointer): the
viewport and clear always happen; when the draw data is null or not
`Valid` the function returns early, leaving the instance state untouched;
otherwise it renders the draw data, records the paint timestamp and sets
`fWasEverPainted`. -/
def onDisplay (now : Nat) (drawData : Option ImDrawData) (st : ImGuiUIState) :
    PaintResult × ImGuiUIState :=
  let base : PaintResult :=
    { viewportW := cIntOfFloat st.io.displaySizeX
      viewportH := cIntOfFloat st.io.displaySizeY
      clearColor := st.fBackgroundColor
      rendered := none }
  match drawData with
  | none => (base, st)
  | some d =>
      if d.valid then
        ({ base with rendered := some d },
         { st with fLastRepainted := now, fWasEverPainted := true })
      else
        (base, st)

/-- The observable outcome of one `uiIdle` tick: whether the frame
computation (`updateImGui`) was attempted, whether `repaint()` was called
on the host, and the state afterwards. -/
structure IdleResult where
  frameAttempted : Bool
  repaintRequested : Bool
  state : ImGuiUIState

/-- `ImGuiUI::uiIdle` at wall-clock time `now`, where `drawData` is the
draw output the frame pipeline would produce if run this tick: when
`fWasEverPainted` is set, the frame computation runs only if the elapsed
time since `fLastRepainted`, cast to whole milliseconds, strictly exceeds
`fRepaintIntervalMs`; otherwise it runs unconditionally.  `repaint()` is
called exactly when the computation ran and `updateImGui` returned
true. -/
def uiIdle (szCmd szIdx szVtx : Nat) (now : Nat) (drawData : ImDrawData)
    (st : ImGuiUIState) : IdleResult :=
  let shouldRepaint : Bool :=
    if st.fWasEverPainted then
      decide (st.fRepaintIntervalMs < (((now - st.fLastRepainted) / 1000000 : Nat) : Int))
    else
      true
  if shouldRepaint then
    let r := updateImGui szCmd szIdx szVtx drawData st.fDrawCache
    { frameAttempted := true
      repaintRequested := r.1
      state := { st with fDrawCache := r.2 } }
  else
    { frameAttempted := false, repaintRequested := false, state := st }

/-- `ImGuiUI::uiReshape`: recomputes `io.DisplaySize` as the scaled,
rounded event dimensions. -/
def uiReshape (width height : Nat) (st : ImGuiUIState) : ImGuiUIState :=
  { st with
     io := { st.io with
              displaySizeX := (stdRound (getScaleFactor * width) : ℚ)
              displaySizeY := (stdRound (getScaleFactor * height) : ℚ) } }

/-- The `ImGuiIO` input slice as the freshly created imgui context leaves
it: key and button tables zeroed, wheel deltas zero, empty text-input
queue, no capture interest.  (The initial pointer position is not
observed by any theorem here and is modelled as the origin.) -/
def ioZero : ImGuiIOState where
  keysDown := fun _ => false
  keyShift := false
  keyCtrl := false
  keyAlt := false
  keySuper := false
  mouseDown := fun _ => false
  mousePosX := 0
  mousePosY := 0
  mouseWheel := 0
  mouseWheelH := 0
  inputQueueCharacters := []
  wantCaptureKeyboard := false
  wantCaptureMouse := false
  displaySizeX := 0
  displaySizeY := 0

/-- The state after construction (`Impl::Impl` running `setupGL`): the
display size is set from the constructor dimensions, the background color
is the member initialiser `Color{0.25f, 0.25f, 0.25f}` (DPF's `Color`
defaults alpha to 1), the repaint interval is 15 ms, no paint has
happened (`fLastRepainted` is the default-constructed epoch time point),
and the draw cache is empty. -/
def initialState (width height : Nat) : ImGuiUIState where
  io := { ioZero with
           displaySizeX := (stdRound (getScaleFactor * width) : ℚ)
           displaySizeY := (stdRound (getScaleFactor * height) : ℚ) }
  fBackgroundColor := { red := 1 / 4, green := 1 / 4, blue := 1 / 4, alpha := 1 }
  fRepaintIntervalMs := 15
  fLastRepainted := 0
  fWasEverPainted := false
  fDrawCache := []

/-- One host-driven entry into the `ImGuiUI` instance.  The `display` and
`idle` entries carry the wall-clock time of the call and the draw output
the GUI library hands back (an input, since the library is a black
box). -/
inductive UIEvent where
  | keyboard (event : KeyboardEvent)
  | special (event : SpecialEvent)
  | mouse (event : MouseEvent)
  | motion (event : MotionEvent)
  | scroll (event : ScrollEvent)
  | display (now : Nat) (drawData : Option ImDrawData)
  | idle (now : Nat) (drawData : ImDrawData)
  | reshape (width height : Nat)
  | setBgColor (color : Color)
  | setInterval (intervalMs : Int)

/-- Whether a `UIEvent` is the `setBackgroundColor` call. -/
def isSetBgColorEvent : UIEvent → Bool
  | UIEvent.setBgColor _ => true
  | _ => false

/-- The state transition of one `UIEvent` (return values of the handlers
are dropped here; the theorems about them use the handlers directly). -/
def applyEvent (szCmd szIdx szVtx : Nat) : UIEvent → ImGuiUIState → ImGuiUIState
  | UIEvent.keyboard event, st => { st with io := (onKeyboard event st.io).2 }
  | UIEvent.special event, st => { st with io := (onSpecial event st.io).2 }
  | UIEvent.mouse event, st => { st with io := (onMouse event st.io).2 }
  | UIEvent.motion event, st => { st with io := (onMotion event st.io).2 }
  | UIEvent.scroll event, st => { st with io := (onScroll event st.io).2 }
  | UIEvent.display now drawData, st => (onDisplay now drawData st).2
  | UIEvent.idle now drawData, st => (uiIdle szCmd szIdx szVtx now drawData st).state
  | UIEvent.reshape w h, st => uiReshape w h st
  | UIEvent.setBgColor color, st => setBackgroundColor color st
  | UIEvent.setInterval ms, st => setRepaintInterval ms st

/-- A sequence of host-driven entries, applied left to right. -/
def runEvents (szCmd szIdx szVtx : Nat) (events : List UIEvent)
    (st : ImGuiUIState) : ImGuiUIState :=
  events.foldl (fun s e => applyEvent szCmd szIdx szVtx e s) st

/-- Componentwise structural equality of two draw lists, spelled the way
the spec states it: equal flags, and for each of the three buffers equal
element count and equal raw byte content. -/
def drawListEquiv (a b : ImDrawList) : Prop :=
  a.flags = b.flags
    ∧ a.cmdBuffer.size = b.cmdBuffer.size ∧ a.cmdBuffer.bytes = b.cmdBuffer.bytes
    ∧ a.idxBuffer.size = b.idxBuffer.size ∧ a.idxBuffer.bytes = b.idxBuffer.bytes
    ∧ a.vtxBuffer.size = b.vtxBuffer.size ∧ a.vtxBuffer.bytes = b.vtxBuffer.bytes

/-- Modelled from the spec: the printable ASCII range, codes 32..126
(the spec conditions key-state recording on the key code lying "in the
printable ASCII range"). -/
def printableAsciiSpec (key : Nat) : Bool :=
  decide (32 ≤ key) && decide (key ≤ 126)

/-- Modelled from the spec: the button table as the spec words it, "the
GUI library's 0/1/2 (left/middle/right) ordering", with the platform
codes 1/2/3 meaning left/middle/right as in the vendored DPF headers (not
under `src/`): left 1 to 0, middle 2 to 1, right 3 to 2, unmapped codes
to -1. -/
def mouseButtonSpecOrdering (button : Int) : Int :=
  if button = 1 then 0
  else if button = 2 then 1
  else if button = 3 then 2
  else -1

/-- Concrete empty buffer used by witnesses. -/
def emptyBuf : Buffer := { size := 0, bytes := [] }

/-- Concrete draw list with all buffers empty, used by witnesses. -/
def emptyList : ImDrawList :=
  { flags := 0, cmdBuffer := emptyBuf, idxBuffer := emptyBuf, vtxBuffer := emptyBuf }

/-- Concrete draw output holding one empty list, used by witnesses. -/
def ddEmptyList : ImDrawData := { valid := true, cmdLists := [emptyList] }

/-- Concrete draw output with no lists, used by witnesses. -/
def ddEmpty : ImDrawData := { valid := true, cmdLists := [] }

/-- Concrete index buffer holding the single 16-bit index value 7
(little-endian bytes 7, 0). -/
def idxBufSeven : Buffer := { size := 1, bytes := [7, 0] }

/-- Concrete index buffer holding the single 16-bit index value 9
(little-endian bytes 9, 0). -/
def idxBufNine : Buffer := { size := 1, bytes := [9, 0] }

/-- Concrete draw list whose only non-empty buffer is `idxBufSeven`. -/
def listIdxSeven : ImDrawList :=
  { flags := 0, cmdBuffer := emptyBuf, idxBuffer := idxBufSeven, vtxBuffer := emptyBuf }

/-- Concrete draw list whose only non-empty buffer is `idxBufNine`. -/
def listIdxNine : ImDrawList :=
  { flags := 0, cmdBuffer := emptyBuf, idxBuffer := idxBufNine, vtxBuffer := emptyBuf }

/-- Concrete draw output holding `listIdxSeven` only. -/
def ddIdxSeven : ImDrawData := { valid := true, cmdLists := [listIdxSeven] }

/-- Concrete input state whose only set field is `wantCaptureMouse`. -/
def ioWantsMouse : ImGuiIOState := { ioZero with wantCaptureMouse := true }

/-- Concrete instance state whose cache holds the deep copy of
`ddEmptyList`, as after a cache update on that output. -/
def stWithCache : ImGuiUIState :=
  { initialState 100 100 with fDrawCache := updateDrawCache ddEmptyList }

/-- Concrete instance state that has painted once (at the epoch) with the
default 15 ms interval. -/
def stPainted : ImGuiUIState :=
  { initialState 100 100 with fWasEverPainted := true }

/-- Helper: the per-list comparison is reflexive. -/
theorem checkDrawListEquals_self (szCmd szIdx szVtx : Nat) (a : ImDrawList) :
    checkDrawListEquals szCmd szIdx szVtx a a = true := by
  simp [checkDrawListEquals, binaryItemEquals, memcmpIsZero]

/-- Helper: the loop body of `checkDrawCacheEquals` accepts a list zipped
with itself. -/
theorem all_zip_self (szCmd szIdx szVtx : Nat) (l : List ImDrawList) :
    ((List.zip l l).all fun p => checkDrawListEquals szCmd szIdx szVtx p.1 p.2) = true := by
  induction l with
  | nil => rfl
  | cons a t ih => simp [List.zip_cons_cons, ih, checkDrawListEquals_self]

/-- Helper: the differ accepts a draw output compared against its own
list of draw lists. -/
theorem checkDrawCacheEquals_self (szCmd szIdx szVtx : Nat) (dd : ImDrawData) :
    checkDrawCacheEquals szCmd szIdx szVtx dd dd.cmdLists = true := by
  simp [checkDrawCacheEquals, all_zip_self]

/-- Helper: componentwise structural equality of draw lists is equality. -/
theorem drawListEquiv_eq {a b : ImDrawList} (h : drawListEquiv a b) : a = b := by
  obtain ⟨h1, h2, h3, h4, h5, h6, h7⟩ := h
  cases a; cases b
  simp_all [ImDrawList.mk.injEq, Buffer.ext_iff]

/-- Helper: componentwise structural equality of draw-list sequences is
equality. -/
theorem forall₂_drawListEquiv_eq {l1 l2 : List ImDrawList}
    (h : List.Forall₂ drawListEquiv l1 l2) : l1 = l2 := by
  induction h with
  | nil => rfl
  | cons h1 _ ih => rw [drawListEquiv_eq h1, ih]

/-- Helper: componentwise structural equality is reflexive. -/
theorem forall₂_drawListEquiv_refl (l : List ImDrawList) :
    List.Forall₂ drawListEquiv l l := by
  induction l with
  | nil => exact List.Forall₂.nil
  | cons a t ih => exact List.Forall₂.cons ⟨rfl, rfl, rfl, rfl, rfl, rfl, rfl⟩ ih

/-- Helper: in value semantics the cache update yields exactly the new
output's sequence of lists. -/
theorem updateDrawCache_eq_cmdLists (dd : ImDrawData) :
    updateDrawCache dd = dd.cmdLists := by
  show cleanupDrawCache ++ dd.cmdLists.map CloneOutput = dd.cmdLists
  rw [cleanupDrawCache, List.nil_append]
  induction dd.cmdLists with
  | nil => rfl
  | cons a t ih => simp [CloneOutput, ih]

/-- Helper: the frame computation attempt of a `uiIdle` tick happens
exactly when the scheduler gate opens. -/
theorem uiIdle_frameAttempted (szCmd szIdx szVtx now : Nat) (dd : ImDrawData)
    (st : ImGuiUIState) :
    (uiIdle szCmd szIdx szVtx now dd st).frameAttempted =
      (if st.fWasEverPainted then
        decide (st.fRepaintIntervalMs < (((now - st.fLastRepainted) / 1000000 : Nat) : Int))
      else true) := by
  cases hw : st.fWasEverPainted
  · simp only [uiIdle, hw]
    rfl
  · simp only [uiIdle, hw]
    cases hd : decide (st.fRepaintIntervalMs < (((now - st.fLastRepainted) / 1000000 : Nat) : Int)) <;>
      rfl

/-- Helper: a `uiIdle` tick calls the host's `repaint()` exactly when the
scheduler gate opens and `updateImGui` reports a change. -/
theorem uiIdle_repaintRequested (szCmd szIdx szVtx now : Nat) (dd : ImDrawData)
    (st : ImGuiUIState) :
    (uiIdle szCmd szIdx szVtx now dd st).repaintRequested =
      ((if st.fWasEverPainted then
          decide (st.fRepaintIntervalMs < (((now - st.fLastRepainted) / 1000000 : Nat) : Int))
        else true)
        && (updateImGui szCmd szIdx szVtx dd st.fDrawCache).1) := by
  cases hw : st.fWasEverPainted
  · simp only [uiIdle, hw]
    rfl
  · simp only [uiIdle, hw]
    cases hd : decide (st.fRepaintIntervalMs < (((now - st.fLastRepainted) / 1000000 : Nat) : Int)) <;>
      rfl

/-- C1: the claim states that any draw output differing from the cache in
any single byte of any of the three buffers makes `checkDrawCacheEquals`
report "changed".  The code violates this: it computes each buffer's
comparison length as `Size / sizeof(Element)` (dividing the element count
by the element byte size instead of multiplying), so `memcmp` covers only
that prefix.  Concretely, for any index element size of at least 2 bytes
(the vendored imgui default `ImDrawIdx` is a 2-byte `unsigned short`),
a cached one-element index buffer with bytes 7, 0 and a new output with
bytes 9, 0 derive comparison length 1 / `szIdx` = 0, so zero bytes are
compared and the differ reports "unchanged" although the buffers differ
in a byte. -/
theorem checkDrawCacheEquals_misses_byte_change (szCmd szIdx szVtx : Nat)
    (hsz : 2 ≤ szIdx) :
    listIdxSeven.idxBuffer.bytes ≠ listIdxNine.idxBuffer.bytes
      ∧ checkDrawCacheEquals szCmd szIdx szVtx ddIdxSeven [listIdxNine] = true := by
  constructor
  · decide
  · have h0 : (1 : Nat) / szIdx = 0 := Nat.div_eq_of_lt (by omega)
    simp [checkDrawCacheEquals, checkDrawListEquals, binaryItemEquals, memcmpIsZero,
      ddIdxSeven, listIdxSeven, listIdxNine, idxBufSeven, idxBufNine, emptyBuf, h0]

/-- C1 witness: the failing input evaluated at the real element sizes of
the vendored imgui (2-byte indices). -/
theorem checkDrawCacheEquals_misses_byte_change_witness :
    2 ≤ 2
      ∧ (listIdxSeven.idxBuffer.bytes ≠ listIdxNine.idxBuffer.bytes
         ∧ checkDrawCacheEquals 56 2 20 ddIdxSeven [listIdxNine] = true) :=
  ⟨by decide, checkDrawCacheEquals_misses_byte_change 56 2 20 (by decide)⟩

/-- C2: when two consecutive frame computations produce draw outputs with
equal list counts, bit-identical per-list flags and byte-identical
command/index/vertex buffers (`List.Forall₂ drawListEquiv`, which forces
equal counts), and the cache holds the update from the first output, the
differ reports "unchanged", `updateImGui` returns false, and the `uiIdle`
tick does not call the host's `repaint()`. -/
theorem differ_unchanged_no_repaint (szCmd szIdx szVtx now : Nat)
    (dd1 dd2 : ImDrawData) (st : ImGuiUIState)
    (heq : List.Forall₂ drawListEquiv dd2.cmdLists dd1.cmdLists)
    (hcache : st.fDrawCache = updateDrawCache dd1) :
    checkDrawCacheEquals szCmd szIdx szVtx dd2 st.fDrawCache = true
      ∧ (updateImGui szCmd szIdx szVtx dd2 st.fDrawCache).1 = false
      ∧ (uiIdle szCmd szIdx szVtx now dd2 st).repaintRequested = false := by
  have hl : dd2.cmdLists = dd1.cmdLists := forall₂_drawListEquiv_eq heq
  have hc : st.fDrawCache = dd2.cmdLists := by
    rw [hcache, updateDrawCache_eq_cmdLists, hl]
  have hchk : checkDrawCacheEquals szCmd szIdx szVtx dd2 st.fDrawCache = true := by
    rw [hc]; exact checkDrawCacheEquals_self szCmd szIdx szVtx dd2
  have hui : updateImGui szCmd szIdx szVtx dd2 st.fDrawCache = (false, st.fDrawCache) := by
    simp [updateImGui, hchk]
  refine ⟨hchk, by simp [hui], ?_⟩
  rw [uiIdle_repaintRequested, hui]
  simp

/-- C2 witness: a concrete pair of identical one-list outputs with the
cache updated from the first. -/
theorem differ_unchanged_no_repaint_witness :
    (List.Forall₂ drawListEquiv ddEmptyList.cmdLists ddEmptyList.cmdLists
       ∧ stWithCache.fDrawCache = updateDrawCache ddEmptyList)
      ∧ (checkDrawCacheEquals 56 2 20 ddEmptyList stWithCache.fDrawCache = true
         ∧ (updateImGui 56 2 20 ddEmptyList stWithCache.fDrawCache).1 = false
         ∧ (uiIdle 56 2 20 0 ddEmptyList stWithCache).repaintRequested = false) := by
  have h1 : List.Forall₂ drawListEquiv ddEmptyList.cmdLists ddEmptyList.cmdLists :=
    forall₂_drawListEquiv_refl ddEmptyList.cmdLists
  have h2 : stWithCache.fDrawCache = updateDrawCache ddEmptyList := rfl
  exact ⟨⟨h1, h2⟩,
    differ_unchanged_no_repaint 56 2 20 0 ddEmptyList ddEmptyList stWithCache h1 h2⟩

/-- C3 counterexample: the claim states that every `onDisplay` invocation
records the paint timestamp and sets `fWasEverPainted` before returning,
including when no draw output is retrievable or the output is not valid.
The code returns early in exactly those cases, before the lines that
record the timestamp and set the flag: with a null draw output (and with
an invalid one) at time 5, the flag stays false and the timestamp stays
at its initial value 0. -/
theorem onDisplay_invalid_skips_timestamp_cex :
    (onDisplay 5 none (initialState 100 100)).2.fWasEverPainted = false
      ∧ (onDisplay 5 none (initialState 100 100)).2.fLastRepainted = 0
      ∧ (onDisplay 5 (some { valid := false, cmdLists := [] })
          (initialState 100 100)).2.fWasEverPainted = false :=
  ⟨rfl, rfl, rfl⟩

/-- C3 amended: `onDisplay` records the paint timestamp and sets the
"has painted at least once" flag exactly when a draw output is
retrievable from the GUI library and marked valid; when the draw output
is null or invalid it returns early leaving the instance state
unchanged. -/
theorem onDisplay_timestamp_iff_valid (now : Nat) (drawData : Option ImDrawData)
    (st : ImGuiUIState) :
    (drawData = none → (onDisplay now drawData st).2 = st)
      ∧ (∀ d, drawData = some d → d.valid = false → (onDisplay now drawData st).2 = st)
      ∧ (∀ d, drawData = some d → d.valid = true →
          (onDisplay now drawData st).2.fLastRepainted = now
            ∧ (onDisplay now drawData st).2.fWasEverPainted = true) := by
  refine ⟨?_, ?_, ?_⟩
  · rintro rfl; rfl
  · rintro d rfl hv; simp [onDisplay, hv]
  · rintro d rfl hv; simp [onDisplay, hv]

/-- C3 amended witness: a valid one-list output at time 7 records the
timestamp 7 and sets the flag. -/
theorem onDisplay_timestamp_iff_valid_witness :
    ((some ddEmptyList : Option ImDrawData) = some ddEmptyList ∧ ddEmptyList.valid = true)
      ∧ ((onDisplay 7 (some ddEmptyList) (initialState 100 100)).2.fLastRepainted = 7
         ∧ (onDisplay 7 (some ddEmptyList) (initialState 100 100)).2.fWasEverPainted = true) :=
  ⟨⟨rfl, rfl⟩,
   (onDisplay_timestamp_iff_valid 7 (some ddEmptyList) (initialState 100 100)).2.2
     ddEmptyList rfl rfl⟩

/-- C4: on a `uiIdle` tick, if `fWasEverPainted` is false the frame
computation attempt is triggered unconditionally; if it is true, the
attempt is triggered if and only if the elapsed time since the last
paint timestamp, in whole milliseconds, strictly exceeds the configured
minimum interval (15 ms after construction); in particular 10 ms elapsed
with a 15 ms interval triggers nothing and 16 ms elapsed does trigger. -/
theorem uiIdle_gate (szCmd szIdx szVtx now w h : Nat) (dd : ImDrawData)
    (st : ImGuiUIState) :
    (initialState w h).fRepaintIntervalMs = 15
      ∧ (st.fWasEverPainted = false →
          (uiIdle szCmd szIdx szVtx now dd st).frameAttempted = true)
      ∧ (st.fWasEverPainted = true →
          ((uiIdle szCmd szIdx szVtx now dd st).frameAttempted = true
            ↔ st.fRepaintIntervalMs < (((now - st.fLastRepainted) / 1000000 : Nat) : Int)))
      ∧ (st.fWasEverPainted = true → st.fRepaintIntervalMs = 15 →
          (uiIdle szCmd szIdx szVtx (st.fLastRepainted + 10000000) dd st).frameAttempted = false)
      ∧ (st.fWasEverPainted = true → st.fRepaintIntervalMs = 15 →
          (uiIdle szCmd szIdx szVtx (st.fLastRepainted + 16000000) dd st).frameAttempted = true) := by
  refine ⟨rfl, ?_, ?_, ?_, ?_⟩
  · intro hwep
    rw [uiIdle_frameAttempted, hwep]
    simp
  · intro hwep
    rw [uiIdle_frameAttempted, hwep]
    simp
  · intro hwep hint
    rw [uiIdle_frameAttempted, hwep, hint]
    norm_num
  · intro hwep hint
    rw [uiIdle_frameAttempted, hwep, hint]
    norm_num

/-- C4 witness: a state that painted at the epoch with the default 15 ms
interval attempts a frame 16 ms later. -/
theorem uiIdle_gate_witness :
    (stPainted.fWasEverPainted = true ∧ stPainted.fRepaintIntervalMs = 15)
      ∧ (uiIdle 56 2 20 (stPainted.fLastRepainted + 16000000) ddEmpty
          stPainted).frameAttempted = true :=
  ⟨⟨rfl, rfl⟩,
   (uiIdle_gate 56 2 20 0 1 1 ddEmpty stPainted).2.2.2.2 rfl rfl⟩

/-- C5: after `updateDrawCache` runs on a draw output the differ reported
"changed" on, the cache structurally equals that output: same list count
and, for each list, an owned copy with identical flags and identical
command/index/vertex buffer element counts and byte contents; the
`updateImGui` path returns true and installs exactly that copy (the
previous cache being discarded by `cleanupDrawCache`). -/
theorem updateDrawCache_roundtrip (szCmd szIdx szVtx : Nat) (dd : ImDrawData)
    (oldCache : List ImDrawList)
    (hchanged : checkDrawCacheEquals szCmd szIdx szVtx dd oldCache = false) :
    (updateDrawCache dd).length = dd.cmdLists.length
      ∧ List.Forall₂ drawListEquiv (updateDrawCache dd) dd.cmdLists
      ∧ updateImGui szCmd szIdx szVtx dd oldCache = (true, updateDrawCache dd) := by
  refine ⟨?_, ?_, ?_⟩
  · rw [updateDrawCache_eq_cmdLists]
  · rw [updateDrawCache_eq_cmdLists]
    exact forall₂_drawListEquiv_refl dd.cmdLists
  · simp [updateImGui, hchanged]

/-- C5 witness: updating from the empty cache with a one-list output (on
which the differ reports "changed" because of the differing list count). -/
theorem updateDrawCache_roundtrip_witness :
    checkDrawCacheEquals 56 2 20 ddEmptyList [] = false
      ∧ ((updateDrawCache ddEmptyList).length = ddEmptyList.cmdLists.length
         ∧ List.Forall₂ drawListEquiv (updateDrawCache ddEmptyList) ddEmptyList.cmdLists
         ∧ updateImGui 56 2 20 ddEmptyList [] = (true, updateDrawCache ddEmptyList)) :=
  ⟨rfl, updateDrawCache_roundtrip 56 2 20 ddEmptyList [] rfl⟩

/-- Helper: the key-state table after `onSpecial` is the input table
updated at exactly the reserved index. -/
theorem onSpecial_keysDown (event : SpecialEvent) (io : ImGuiIOState) :
    (onSpecial event io).2.keysDown =
      fun j => if j = specialKeyIndex event.key then event.press else io.keysDown j := by
  simp only [onSpecial]
  split_ifs <;> rfl

/-- C6 counterexample: the claim conditions key-state recording on the
raw key code lying in the printable ASCII range, but the code records for
every code below 128: the non-printable DEL code 127 is outside the
printable range, yet a press at 127 sets the key-state entry at index
127. -/
theorem onKeyboard_nonprintable_recorded_cex :
    printableAsciiSpec 127 = false
      ∧ ioZero.keysDown 127 = false
      ∧ (onKeyboard { press := true, key := 127 } ioZero).2.keysDown 127 = true :=
  ⟨rfl, rfl, rfl⟩

/-- C6 amended: on press the character is appended to the pending
text-input queue; and if and only if the raw key code lies in the ASCII
range (code below 128), the pressed/released state is recorded in the
key-state table at the key's index after normalizing lowercase letters
to the corresponding uppercase index, so a press at code 97 registers at
index 65 and a release of the same raw code clears that index. -/
theorem onKeyboard_ascii_recording (event : KeyboardEvent) (io : ImGuiIOState) :
    ((onKeyboard event io).2.inputQueueCharacters =
        if event.press then io.inputQueueCharacters ++ [event.key]
        else io.inputQueueCharacters)
      ∧ (event.key < 128 →
          (onKeyboard event io).2.keysDown (asciiKeyIndex event.key) = event.press
            ∧ ∀ j, j ≠ asciiKeyIndex event.key →
                (onKeyboard event io).2.keysDown j = io.keysDown j)
      ∧ (128 ≤ event.key → (onKeyboard event io).2.keysDown = io.keysDown)
      ∧ asciiKeyIndex 97 = 65 := by
  refine ⟨?_, ?_, ?_, by decide⟩
  · cases hp : event.press <;> simp only [onKeyboard, hp] <;> split <;> rfl
  · intro hk
    refine ⟨?_, ?_⟩
    · cases hp : event.press <;> simp [onKeyboard, hp, hk]
    · intro j hj
      cases hp : event.press <;> simp [onKeyboard, hp, hk, hj]
  · intro hk
    have hk' : ¬event.key < 128 := by omega
    cases hp : event.press <;> simp [onKeyboard, hp, hk']

/-- C6 amended witness: a press at the lowercase code 97 registers
pressed at index `asciiKeyIndex 97 = 65`. -/
theorem onKeyboard_ascii_recording_witness :
    (97 < 128
       ∧ (onKeyboard { press := true, key := 97 } ioZero).2.keysDown (asciiKeyIndex 97) = true)
      ∧ asciiKeyIndex 97 = 65 :=
  ⟨⟨by decide,
    ((onKeyboard_ascii_recording { press := true, key := 97 } ioZero).2.1 (by decide)).1⟩,
   (onKeyboard_ascii_recording { press := true, key := 97 } ioZero).2.2.2⟩

/-- C7 counterexample: the claim states the fixed table realises the GUI
library's "0/1/2 = left/middle/right" ordering, which (with the platform
codes 1/2/3 meaning left/middle/right) would map the middle button 2 to
index 1; the code maps button 2 to index 2, and a middle-button press
sets `MouseDown[2]`, not `MouseDown[1]`. -/
theorem onMouse_ordering_cex :
    mouseButtonToImGui 2 = 2
      ∧ mouseButtonSpecOrdering 2 = 1
      ∧ mouseButtonToImGui 2 ≠ mouseButtonSpecOrdering 2
      ∧ (onMouse { press := true, button := 2 } ioZero).2.mouseDown 2 = true
      ∧ (onMouse { press := true, button := 2 } ioZero).2.mouseDown 1 = false :=
  ⟨rfl, rfl, by decide, rfl, rfl⟩

/-- C7 amended: every mouse button event maps the platform button code
through the fixed table 1 to 0, 2 to 2, 3 to 1 (the GUI library's
0/1/2 = left/right/middle ordering) and records the press/release state
at the mapped index; every button code outside the mapped set 1, 2, 3
maps to -1 and causes no state change at all. -/
theorem onMouse_fixed_table (event : MouseEvent) (io : ImGuiIOState) :
    (mouseButtonToImGui 1 = 0 ∧ mouseButtonToImGui 2 = 2 ∧ mouseButtonToImGui 3 = 1)
      ∧ (event.button ≠ 1 → event.button ≠ 2 → event.button ≠ 3 →
          mouseButtonToImGui event.button = -1 ∧ (onMouse event io).2 = io)
      ∧ (mouseButtonToImGui event.button ≠ -1 →
          (onMouse event io).2.mouseDown (mouseButtonToImGui event.button) = event.press
            ∧ ∀ j, j ≠ mouseButtonToImGui event.button →
                (onMouse event io).2.mouseDown j = io.mouseDown j) := by
  refine ⟨⟨rfl, rfl, rfl⟩, ?_, ?_⟩
  · intro h1 h2 h3
    have hm : mouseButtonToImGui event.button = -1 := by
      simp [mouseButtonToImGui, h1, h2, h3]
    exact ⟨hm, by simp [onMouse, hm]⟩
  · intro hm
    constructor
    · simp [onMouse, hm]
    · intro j hj
      simp [onMouse, hm, hj]

/-- C7 amended witness: a right-button (platform code 3) press records
pressed state at the mapped index 1. -/
theorem onMouse_fixed_table_witness :
    mouseButtonToImGui 3 ≠ -1
      ∧ (onMouse { press := true, button := 3 } ioZero).2.mouseDown (mouseButtonToImGui 3) = true :=
  ⟨by decide,
   ((onMouse_fixed_table { press := true, button := 3 } ioZero).2.2 (by decide)).1⟩

/-- C8: for every special key event whose logical key id is one of the
special-key ids (1..25, `kKeyF1`..`kKeySuper`), the reserved index
`KeysDownSize - id` written by `onSpecial` lies within the bounds of the
key-state table and outside the printable-key region 0..127; the write
lands exactly there and touches no other index. -/
theorem onSpecial_reserved_index_safe (event : SpecialEvent) (io : ImGuiIOState)
    (h1 : kKeyF1 ≤ event.key) (h2 : event.key ≤ kKeySuper) :
    (128 ≤ specialKeyIndex event.key ∧ specialKeyIndex event.key < (KeysDownSize : Int))
      ∧ (onSpecial event io).2.keysDown (specialKeyIndex event.key) = event.press
      ∧ ∀ j, j ≠ specialKeyIndex event.key →
          (onSpecial event io).2.keysDown j = io.keysDown j := by
  refine ⟨?_, ?_, ?_⟩
  · simp only [kKeyF1, kKeySuper] at h1 h2
    simp only [specialKeyIndex, KeysDownSize]
    omega
  · rw [onSpecial_keysDown]
    simp
  · intro j hj
    rw [onSpecial_keysDown]
    simp [hj]

/-- C8 witness: the largest special-key id, `kKeySuper` = 25, maps to the
reserved index 487, inside the table and outside the printable region. -/
theorem onSpecial_reserved_index_safe_witness :
    (kKeyF1 ≤ kKeySuper ∧ kKeySuper ≤ kKeySuper)
      ∧ (128 ≤ specialKeyIndex kKeySuper ∧ specialKeyIndex kKeySuper < (KeysDownSize : Int)) :=
  ⟨⟨by decide, by decide⟩,
   (onSpecial_reserved_index_safe { press := true, key := kKeySuper } ioZero
     (by decide) (by decide)).1⟩

/-- C9 counterexample: the claim states every handler returns whether the
GUI library claims interest in the event, in particular that the motion
handler's return value reflects the library's claimed interest in mouse
input; but `onMotion` returns the constant false even when
`WantCaptureMouse` is set. -/
theorem onMotion_ignores_capture_cex :
    ioWantsMouse.wantCaptureMouse = true
      ∧ (onMotion { posX := 0, posY := 0 } ioWantsMouse).1 = false :=
  ⟨rfl, rfl⟩

/-- C9 amended: the keyboard and special-key handlers return the GUI
library's `WantCaptureKeyboard`, the mouse-button and scroll handlers
return `WantCaptureMouse`, each updating the input state synchronously;
the motion handler always returns false regardless of the GUI library's
claimed interest. -/
theorem handlers_return_capture_flags (kev : KeyboardEvent) (sev : SpecialEvent)
    (mev : MouseEvent) (moev : MotionEvent) (scev : ScrollEvent) (io : ImGuiIOState) :
    (onKeyboard kev io).1 = io.wantCaptureKeyboard
      ∧ (onSpecial sev io).1 = io.wantCaptureKeyboard
      ∧ (onMouse mev io).1 = io.wantCaptureMouse
      ∧ (onScroll scev io).1 = io.wantCaptureMouse
      ∧ (onMotion moev io).1 = false := by
  refine ⟨?_, ?_, ?_, rfl, rfl⟩
  · simp only [onKeyboard]
    split_ifs <;> rfl
  · simp only [onSpecial]
    split_ifs <;> rfl
  · simp only [onMouse]
    split_ifs <;> rfl

/-- Helper: no entry point other than `setBackgroundColor` changes the
stored background color. -/
theorem applyEvent_preserves_bg (szCmd szIdx szVtx : Nat) (e : UIEvent)
    (st : ImGuiUIState) (h : isSetBgColorEvent e = false) :
    (applyEvent szCmd szIdx szVtx e st).fBackgroundColor = st.fBackgroundColor := by
  cases e with
  | keyboard event => rfl
  | special event => rfl
  | mouse event => rfl
  | motion event => rfl
  | scroll event => rfl
  | display now drawData =>
      cases drawData with
      | none => rfl
      | some d =>
          show (onDisplay now (some d) st).2.fBackgroundColor = st.fBackgroundColor
          simp only [onDisplay]
          split <;> rfl
  | idle now drawData =>
      show (uiIdle szCmd szIdx szVtx now drawData st).state.fBackgroundColor = st.fBackgroundColor
      cases hw : st.fWasEverPainted
      · simp only [uiIdle, hw]
        rfl
      · simp only [uiIdle, hw]
        cases hd : decide (st.fRepaintIntervalMs
            < (((now - st.fLastRepainted) / 1000000 : Nat) : Int)) <;> rfl
  | reshape w h => rfl
  | setBgColor color => simp [isSetBgColorEvent] at h
  | setInterval ms => rfl

/-- Helper: a run of entry points containing no `setBackgroundColor`
leaves the stored background color unchanged. -/
theorem runEvents_preserves_bg (szCmd szIdx szVtx : Nat) (events : List UIEvent)
    (st : ImGuiUIState) (h : ∀ e ∈ events, isSetBgColorEvent e = false) :
    (runEvents szCmd szIdx szVtx events st).fBackgroundColor = st.fBackgroundColor := by
  induction events generalizing st with
  | nil => rfl
  | cons e t ih =>
      have he := h e (List.mem_cons_self e t)
      have ht : ∀ x ∈ t, isSetBgColorEvent x = false :=
        fun x hx => h x (List.mem_cons_of_mem e hx)
      show (runEvents szCmd szIdx szVtx t (applyEvent szCmd szIdx szVtx e st)).fBackgroundColor
        = st.fBackgroundColor
      rw [ih (applyEvent szCmd szIdx szVtx e st) ht,
        applyEvent_preserves_bg szCmd szIdx szVtx e st he]

/-- C10: after construction the background color has red, green and blue
components all 0.25; any run of entry points containing no
`setBackgroundColor` call leaves it at that default, and every paint
clears to the currently stored background color; `setBackgroundColor`
replaces the stored color, which the next paint then clears to,
unconditionally. -/
theorem backgroundColor_default_until_set (szCmd szIdx szVtx w hgt now : Nat)
    (events : List UIEvent) (drawData : Option ImDrawData)
    (st : ImGuiUIState) (c : Color)
    (hnone : ∀ e ∈ events, isSetBgColorEvent e = false) :
    ((initialState w hgt).fBackgroundColor.red = 1 / 4
       ∧ (initialState w hgt).fBackgroundColor.green = 1 / 4
       ∧ (initialState w hgt).fBackgroundColor.blue = 1 / 4)
      ∧ (runEvents szCmd szIdx szVtx events (initialState w hgt)).fBackgroundColor
          = (initialState w hgt).fBackgroundColor
      ∧ (onDisplay now drawData st).1.clearColor = st.fBackgroundColor
      ∧ (setBackgroundColor c st).fBackgroundColor = c
      ∧ (onDisplay now drawData (setBackgroundColor c st)).1.clearColor = c := by
  have hclear : ∀ s : ImGuiUIState, (onDisplay now drawData s).1.clearColor = s.fBackgroundColor := by
    intro s
    cases drawData with
    | none => rfl
    | some d =>
        show (onDisplay now (some d) s).1.clearColor = s.fBackgroundColor
        simp only [onDisplay]
        split <;> rfl
  refine ⟨⟨rfl, rfl, rfl⟩, ?_, hclear st, ?_, ?_⟩
  · exact runEvents_preserves_bg szCmd szIdx szVtx events (initialState w hgt) hnone
  · rfl
  · rw [hclear (setBackgroundColor c st)]
    rfl

/-- C10 witness: the empty run keeps the default, and a paint on the
fresh instance clears to the stored default color. -/
theorem backgroundColor_default_until_set_witness :
    (∀ e ∈ ([] : List UIEvent), isSetBgColorEvent e = false)
      ∧ (runEvents 56 2 20 [] (initialState 100 100)).fBackgroundColor
          = (initialState 100 100).fBackgroundColor
      ∧ (onDisplay 0 none (initialState 100 100)).1.clearColor
          = (initialState 100 100).fBackgroundColor
      ∧ (initialState 100 100).fBackgroundColor.red = 1 / 4 := by
  have h : ∀ e ∈ ([] : List UIEvent), isSetBgColorEvent e = false := by
    intro e he
    cases he
  have hmain := backgroundColor_default_until_set 56 2 20 100 100 0 [] none
    (initialState 100 100) { red := 1, green := 0, blue := 0, alpha := 1 } h
  exact ⟨h, hmain.2.1, hmain.2.2.1, hmain.1.1⟩

end ImGuiUIModel
